import Mathlib

/-!
Shallow embedding of the servprobe monitoring core (Go) for specification
checking: check results, the alert dispatcher with per-service cooldown,
the scheduler's probe step and service task loop, the checker factory and
the four checker variants, configuration loading, and the one-off check
command.  Time is modelled as integer nanoseconds (Go `time.Duration` /
`time.Time` ticks); effectful collaborators (storage, HTTP transport,
command execution, the container runtime) are parameters supplying the
outcomes the Go code branches on.
-/

namespace Servprobe

/-- Model of Go `checker.Status` (`internal/checker/result.go`): a string
with the two constants `StatusUp = "up"` and `StatusDown = "down"`. -/
abbrev Status := String

/-- Go constant `checker.StatusUp`. -/
def statusUp : Status := "up"

/-- Go constant `checker.StatusDown`. -/
def statusDown : Status := "down"

/-- Model of Go `checker.CheckResult`: `responseTime` is in nanoseconds
(`time.Duration`), `checkedAt` is the probe-start instant in nanoseconds. -/
structure CheckResult where
  serviceName : String
  status : Status
  responseTime : Int
  error : String
  checkedAt : Int
deriving DecidableEq

/-- Model of the Go `alert.Alerter` state: webhook URL, cooldown window
(nanoseconds), and the `lastAlert` map from service name to the time of the
last dispatched alert (`none` when the key is absent). -/
structure Alerter where
  webhookURL : String
  cooldown : Int
  lastAlert : String → Option Int

/-- Model of Go `alert.New`: the `lastAlert` map starts empty. -/
def Alerter.new (url : String) (cooldown : Int) : Alerter :=
  { webhookURL := url, cooldown := cooldown, lastAlert := fun _ => none }

/-- Model of Go `alert.webhookPayload` as built by `Alerter.send`
(`ResponseTimeMs` is `Duration.Milliseconds()`, truncated division). -/
structure WebhookPayload where
  service : String
  status : String
  previousStatus : String
  error : String
  responseTimeMs : Int
  checkedAt : Int
  source : String
deriving DecidableEq

/-- The payload `Alerter.send` constructs from a result and the previous
status string. -/
def sendPayload (result : CheckResult) (prevStatus : String) : WebhookPayload :=
  { service := result.serviceName
    status := result.status
    previousStatus := prevStatus
    error := result.error
    responseTimeMs := Int.tdiv result.responseTime 1000000
    checkedAt := result.checkedAt
    source := "servprobe" }

/-- Pointwise map update used for `a.lastAlert[result.ServiceName] = time.Now()`. -/
def setLastAlert (f : String → Option Int) (name : String) (t : Int) :
    String → Option Int :=
  fun n => if n = name then some t else f n

/-- The cooldown test in `Alerter.Notify`: Go
`last, exists := a.lastAlert[name]; exists && time.Since(last) < a.cooldown`,
with `time.Since(last) = now - last`. -/
def cooldownActive (a : Alerter) (now : Int) (name : String) : Bool :=
  match a.lastAlert name with
  | some last => now - last < a.cooldown
  | none => false

/-- Model of Go `Alerter.Notify` (`internal/alert`): returns the updated
alerter state and the list of payloads dispatched (each `go a.send(...)`
contributes one element).  `now` stands for `time.Now()` at this call. -/
def Alerter.Notify (a : Alerter) (now : Int) (result : CheckResult)
    (previousStatus : Option Status) : Alerter × List WebhookPayload :=
  match previousStatus with
  | none => (a, [])
  | some prev =>
    if result.status = prev then (a, [])
    else if cooldownActive a now result.serviceName then (a, [])
    else
      ({ a with lastAlert := setLastAlert a.lastAlert result.serviceName now },
       [sendPayload result prev])

/-- Model of Go `config.Service` (`internal/config/config.go`): the field
`Type` is a Lean keyword, so it is embedded as `typ`; durations are in
nanoseconds. -/
structure Service where
  name : String
  typ : String
  target : String
  interval : Int
  timeout : Int
  expectedStatus : Int
  headers : List (String × String)
deriving DecidableEq

/-- The four checker variants constructed by `checker.New`. -/
inductive CheckerKind where
  | http
  | tcp
  | ping
  | docker
deriving DecidableEq

/-- Model of the checker factory `checker.New`
(`internal/checker/checker.go`): the type switch over `svc.Type`.  The Go
error `fmt.Errorf("unknown checker type %q", svc.Type)` is rendered with
plain double quotes. -/
def checkerNew (svc : Service) : Except String CheckerKind :=
  if svc.typ = "http" then Except.ok CheckerKind.http
  else if svc.typ = "tcp" then Except.ok CheckerKind.tcp
  else if svc.typ = "ping" then Except.ok CheckerKind.ping
  else if svc.typ = "docker" then Except.ok CheckerKind.docker
  else Except.error ("unknown checker type \"" ++ svc.typ ++ "\"")

/-- Whether the factory succeeds for a service. -/
def factoryOk (svc : Service) : Bool :=
  match checkerNew svc with
  | Except.ok _ => true
  | Except.error _ => false

/-- Model of `Scheduler.Start` (`internal/scheduler/scheduler.go`): for each
configured service in order, invoke the factory; on error log and
`continue`, otherwise spawn `runService` for it.  The returned list is the
list of services for which a task was spawned. -/
def startScheduled (services : List Service) : List Service :=
  services.filter factoryOk

/-- Model of Go `storage.Check` (`internal/storage/sqlite.go`), the row
returned by `LatestCheck`. -/
structure StoredCheck where
  id : Int
  service : String
  status : String
  responseMs : Int
  error : String
  checkedAt : Int
deriving DecidableEq

/-- Observable steps of one `Scheduler.runCheck` execution, in the order the
code performs them. -/
inductive RunEvent where
  | fetchPrev (res : Except String (Option StoredCheck))
  | probe (r : CheckResult)
  | insertRes (res : Except String Unit)
  | callback (r : CheckResult) (prev : Option Status)

/-- The previous check `Scheduler.runCheck` works with: on a `LatestCheck`
error the scheduler logs a warning and continues with the returned pointer,
which is `nil` in the error case (`DB.LatestCheck` returns `nil, err`), so a
read failure behaves as absence. -/
def prevFromLatest (latest : Except String (Option StoredCheck)) :
    Option StoredCheck :=
  match latest with
  | Except.error _ => none
  | Except.ok p => p

/-- Model of `Scheduler.runCheck` (`internal/scheduler/scheduler.go`) as the
trace of its steps.  Parameters supply the collaborator outcomes: `latest`
is the store's `LatestCheck` response, `checkRes` the checker's result,
`insertRes` the store's `InsertCheck` response, and `registered` whether
`SetOnResult` installed a callback.  The previous status passed to the
callback is `checker.Status(prev.Status)` when `prev` is non-nil, else
`nil`. -/
def runCheck (latest : Except String (Option StoredCheck))
    (checkRes : CheckResult) (insertRes : Except String Unit)
    (registered : Bool) : List RunEvent :=
  let prev := prevFromLatest latest
  let evs := [RunEvent.fetchPrev latest, RunEvent.probe checkRes,
              RunEvent.insertRes insertRes]
  if registered then
    evs ++ [RunEvent.callback checkRes (prev.map StoredCheck.status)]
  else evs

/-- One resolution of the `select` in `Scheduler.runService`: either the
interval ticker fired or the context was cancelled. -/
inductive LoopSignal where
  | tick
  | cancel
deriving DecidableEq

/-- Observable events of one service task: a probe (`runCheck` invocation)
or the task exiting. -/
inductive TaskEvent where
  | probe
  | exited
deriving DecidableEq

/-- The `for select` loop of `Scheduler.runService`: a tick runs one probe
and loops; cancellation returns.  An exhausted signal list models a finite
observation window while the task still waits. -/
def serviceLoop : List LoopSignal → List TaskEvent
  | [] => []
  | LoopSignal.cancel :: _ => [TaskEvent.exited]
  | LoopSignal.tick :: rest => TaskEvent.probe :: serviceLoop rest

/-- Model of `Scheduler.runService`: one immediate probe on entry, then the
ticker loop driven by the resolved `select` outcomes. -/
def runService (signals : List LoopSignal) : List TaskEvent :=
  TaskEvent.probe :: serviceLoop signals

/-- Outcome of the HTTP request in `httpChecker.Check`: the request
construction failed, the transport failed, or a response with the given
status code arrived. -/
inductive HttpOutcome where
  | buildErr (msg : String)
  | transportErr (msg : String)
  | response (code : Int)
deriving DecidableEq

/-- Model of `httpChecker.Check` (`internal/checker`, HTTP variant).
`start` is the probe-start instant and `elapsed` the measured
`time.Since(start)` at the single measurement point of the taken branch. -/
def httpCheck (svc : Service) (o : HttpOutcome) (start elapsed : Int) :
    CheckResult :=
  match o with
  | HttpOutcome.buildErr msg =>
    { serviceName := svc.name, status := statusDown, responseTime := elapsed,
      error := "creating request: " ++ msg, checkedAt := start }
  | HttpOutcome.transportErr msg =>
    { serviceName := svc.name, status := statusDown, responseTime := elapsed,
      error := msg, checkedAt := start }
  | HttpOutcome.response code =>
    let expected : Int := if svc.expectedStatus = 0 then 200 else svc.expectedStatus
    if code ≠ expected then
      { serviceName := svc.name, status := statusDown, responseTime := elapsed,
        error := "expected status " ++ toString expected ++ ", got " ++ toString code,
        checkedAt := start }
    else
      { serviceName := svc.name, status := statusUp, responseTime := elapsed,
        error := "", checkedAt := start }

/-- Model of `tcpChecker.Check`: `dialErr` is `some msg` when
`dialer.DialContext` failed with that error text. -/
def tcpCheck (svc : Service) (dialErr : Option String) (start elapsed : Int) :
    CheckResult :=
  match dialErr with
  | some msg =>
    { serviceName := svc.name, status := statusDown, responseTime := elapsed,
      error := "dial tcp " ++ svc.target ++ ": " ++ msg, checkedAt := start }
  | none =>
    { serviceName := svc.name, status := statusUp, responseTime := elapsed,
      error := "", checkedAt := start }

/-- Digit list to number, most significant first. -/
def digitsToNat (ds : List Char) : Nat :=
  ds.foldl (fun a c => a * 10 + (c.toNat - 48)) 0

/-- Try to match the regex `time=(\d+\.?\d*)\s*ms` at the head of the input,
returning the captured group.  For this pattern greedy matching without
backtracking is complete (digits and whitespace never begin `ms`). -/
def matchRttAt (s : List Char) : Option (List Char) :=
  match s with
  | 't' :: 'i' :: 'm' :: 'e' :: '=' :: rest =>
    let intPart := rest.takeWhile Char.isDigit
    let s1 := rest.dropWhile Char.isDigit
    if intPart.isEmpty then none
    else
      let fracPart := match s1 with
        | '.' :: r => '.' :: r.takeWhile Char.isDigit
        | _ => []
      let s2 := match s1 with
        | '.' :: r => r.dropWhile Char.isDigit
        | _ => s1
      let s3 := s2.dropWhile Char.isWhitespace
      match s3 with
      | 'm' :: 's' :: _ => some (intPart ++ fracPart)
      | _ => none
  | _ => none

/-- Leftmost match of `rttRegex` over the output, as `FindSubmatch` does:
scan positions left to right. -/
def findRtt : List Char → Option (List Char)
  | [] => none
  | c :: rest =>
    match matchRttAt (c :: rest) with
    | some cap => some cap
    | none => findRtt rest

/-- The duration `time.Duration(ms * float64(time.Millisecond))` computed
from the captured RTT text, with the float arithmetic modelled exactly over
rationals and the final conversion truncating: for capture `i.f` with `k`
fraction digits this is `(i*10^k + f) * 10^6 / 10^k` nanoseconds. -/
def rttNanos (cap : List Char) : Int :=
  let intPart := cap.takeWhile Char.isDigit
  let fracPart := (cap.dropWhile Char.isDigit).drop 1
  let k := fracPart.length
  Int.ofNat ((digitsToNat intPart * 10 ^ k + digitsToNat fracPart) * 1000000 / 10 ^ k)

/-- Model of `pingChecker.Check` (`src/unnamed/part_002`): `execRes` is the
injected `CommandExecutor.Run` outcome (`Except` error text or stdout). -/
def pingCheck (svc : Service) (execRes : Except String String)
    (start elapsed : Int) : CheckResult :=
  match execRes with
  | Except.error msg =>
    { serviceName := svc.name, status := statusDown, responseTime := elapsed,
      error := "ping " ++ svc.target ++ ": " ++ msg, checkedAt := start }
  | Except.ok stdout =>
    match findRtt stdout.toList with
    | none =>
      { serviceName := svc.name, status := statusDown, responseTime := elapsed,
        error := "could not parse RTT from ping output", checkedAt := start }
    | some cap =>
      { serviceName := svc.name, status := statusUp, responseTime := rttNanos cap,
        error := "", checkedAt := start }

/-- Outcome of `DockerClient.InspectContainer` in `dockerChecker.Check`:
an error (socket unreachable, container not found, bad status, decode
failure) or the container's running state. -/
inductive DockerOutcome where
  | inspectErr (msg : String)
  | state (running : Bool)
deriving DecidableEq

/-- Model of `dockerChecker.Check` (`internal/checker/docker.go`). -/
def dockerCheck (svc : Service) (o : DockerOutcome) (start elapsed : Int) :
    CheckResult :=
  match o with
  | DockerOutcome.inspectErr msg =>
    { serviceName := svc.name, status := statusDown, responseTime := elapsed,
      error := msg, checkedAt := start }
  | DockerOutcome.state running =>
    if running = false then
      { serviceName := svc.name, status := statusDown, responseTime := elapsed,
        error := "container \"" ++ svc.target ++ "\" is not running",
        checkedAt := start }
    else
      { serviceName := svc.name, status := statusUp, responseTime := elapsed,
        error := "", checkedAt := start }

/-- Nanoseconds in the Go duration constants used by the config defaults. -/
def nsPerSecond : Int := 1000000000

/-- The default interval `30 * time.Second`. -/
def default30s : Int := 30 * nsPerSecond

/-- The default timeout `5 * time.Second`. -/
def default5s : Int := 5 * nsPerSecond

/-- Unit characters in `time.ParseDuration`: everything up to the next digit
or dot. -/
def isUnitChar (c : Char) : Bool := !(c = '.' || c.isDigit)

/-- The `unitMap` of `time.ParseDuration`, in nanoseconds. -/
def unitNanos (u : List Char) : Option Nat :=
  if u = ['n', 's'] then some 1
  else if u = ['u', 's'] then some 1000
  else if u = ['µ', 's'] then some 1000
  else if u = ['μ', 's'] then some 1000
  else if u = ['m', 's'] then some 1000000
  else if u = ['s'] then some 1000000000
  else if u = ['m'] then some 60000000000
  else if u = ['h'] then some 3600000000000
  else none

/-- One component's contribution `v*unit + f*unit/scale` of
`time.ParseDuration`, with the float fraction arithmetic modelled exactly
and truncated. -/
def componentNanos (intPart fracPart : List Char) (unit : Nat) : Nat :=
  digitsToNat intPart * unit + digitsToNat fracPart * unit / 10 ^ fracPart.length

/-- The component loop of Go `time.ParseDuration`: repeatedly consume
`[0-9]*(\.[0-9]*)?unit` and accumulate nanoseconds.  `fuel` bounds the
recursion by the input length (each round consumes at least one character);
overflow checks of the original are elided (irrelevant for the inputs the
claims concern). -/
def parseDurLoop (fuel : Nat) (s : List Char) (acc : Nat) : Option Nat :=
  match fuel with
  | 0 =>
    match s with
    | [] => some acc
    | _ :: _ => none
  | Nat.succ fuel =>
    match s with
    | [] => some acc
    | c :: cs =>
      if (c = '.' || c.isDigit) = false then none
      else
        let intPart := (c :: cs).takeWhile Char.isDigit
        let s1 := (c :: cs).dropWhile Char.isDigit
        let fracPart := match s1 with
          | '.' :: r => r.takeWhile Char.isDigit
          | _ => []
        let s2 := match s1 with
          | '.' :: r => r.dropWhile Char.isDigit
          | _ => s1
        if intPart.isEmpty && fracPart.isEmpty then none
        else
          let unitChars := s2.takeWhile isUnitChar
          let s3 := s2.dropWhile isUnitChar
          if unitChars.isEmpty then none
          else
            match unitNanos unitChars with
            | none => none
            | some u => parseDurLoop fuel s3 (acc + componentNanos intPart fracPart u)

/-- Model of Go `time.ParseDuration`: optional sign, special case `"0"`,
then the component loop.  Errors are collapsed to `none` (the Go error text
is wrapped by `config.Load` anyway). -/
def parseDuration (str : String) : Option Int :=
  match str.toList with
  | [] => none
  | d :: ds =>
    let s := d :: ds
    let neg := match s with
      | '-' :: _ => true
      | _ => false
    let s1 := match s with
      | '-' :: r => r
      | '+' :: r => r
      | _ => s
    if s1 = ['0'] then some 0
    else if s1.isEmpty then none
    else
      match parseDurLoop s1.length s1 0 with
      | none => none
      | some n => some (if neg then -(n : Int) else (n : Int))

/-- Model of the raw service block `config.Load` unmarshals before
validation (`rawService` in `internal/config/config.go`): `interval` and
`timeout` are the YAML strings, empty when omitted. -/
structure RawService where
  name : String
  typ : String
  target : String
  interval : String
  timeout : String
  expectedStatus : Int
  headers : List (String × String)
deriving DecidableEq

/-- The `validTypes` map of `internal/config/config.go`. -/
def validTypes (t : String) : Bool :=
  t = "http" || t = "tcp" || t = "ping" || t = "docker"

/-- Interval parsing with default in `config.Load`: empty means
`30 * time.Second`, otherwise `time.ParseDuration` must succeed. -/
def intervalOf (rs : RawService) : Except String Int :=
  if rs.interval = "" then Except.ok default30s
  else
    match parseDuration rs.interval with
    | none =>
      Except.error ("service " ++ rs.name ++ ": invalid interval " ++ rs.interval)
    | some d => Except.ok d

/-- Timeout parsing with default in `config.Load`: empty means
`5 * time.Second`, otherwise `time.ParseDuration` must succeed. -/
def timeoutOf (rs : RawService) : Except String Int :=
  if rs.timeout = "" then Except.ok default5s
  else
    match parseDuration rs.timeout with
    | none =>
      Except.error ("service " ++ rs.name ++ ": invalid timeout " ++ rs.timeout)
    | some d => Except.ok d

/-- The validated `config.Service` built for one raw block, including the
`expected_status` default of 200 for HTTP services. -/
def serviceOfRaw (rs : RawService) (interval timeout : Int) : Service :=
  { name := rs.name
    typ := rs.typ
    target := rs.target
    interval := interval
    timeout := timeout
    expectedStatus :=
      if rs.typ = "http" && rs.expectedStatus = 0 then 200 else rs.expectedStatus
    headers := rs.headers }

/-- The validation loop of `config.Load` over the raw services, carrying the
set of names already seen (the `names` map in the Go code). -/
def loadServicesAux : List RawService → List String → Except String (List Service)
  | [], _ => Except.ok []
  | rs :: rest, names =>
    if rs.name = "" then Except.error "name is required"
    else if rs.name ∈ names then
      Except.error ("duplicate service name " ++ rs.name)
    else if rs.target = "" then
      Except.error ("service " ++ rs.name ++ ": target is required")
    else if validTypes rs.typ = false then
      Except.error ("service " ++ rs.name ++ ": invalid type " ++ rs.typ)
    else
      match intervalOf rs with
      | Except.error e => Except.error e
      | Except.ok i =>
        match timeoutOf rs with
        | Except.error e => Except.error e
        | Except.ok t =>
          match loadServicesAux rest (rs.name :: names) with
          | Except.error e => Except.error e
          | Except.ok svcs => Except.ok (serviceOfRaw rs i t :: svcs)

/-- Model of the services part of `config.Load` after file read and YAML
unmarshal (both modelled as already done, yielding the raw blocks): the
empty-services check followed by the validation loop. -/
def loadConfig (raw : List RawService) : Except String (List Service) :=
  match raw with
  | [] => Except.error "at least one service must be configured"
  | _ :: _ => loadServicesAux raw []

/-- One row of the one-off check command `runChecks`
(`src/unnamed/part_005`): a factory failure becomes a Down result with a
`creating checker` error and zero response time; otherwise the checker's
result (supplied by `env`, since the probe itself is effectful).  `now`
stands for `time.Now()` in the failure branch. -/
def checkRow (svc : Service) (env : Service → CheckResult) (now : Int) :
    CheckResult :=
  match checkerNew svc with
  | Except.error e =>
    { serviceName := svc.name, status := statusDown, responseTime := 0,
      error := "creating checker: " ++ e, checkedAt := now }
  | Except.ok _ => env svc

/-- Model of `runChecks`: one result per configured service in order, and
the returned error (`true` means `"one or more services are down"` was
returned) computed from `allUp`. -/
def runChecks (svcs : List Service) (env : Service → CheckResult) (now : Int) :
    List CheckResult × Bool :=
  let results := svcs.map (fun svc => checkRow svc env now)
  (results, results.any (fun r => r.status ≠ statusUp))

/-- Correspondence between a validated service and the raw block it came
from: identity fields copied, durations defaulted when omitted and parsed
otherwise. -/
def svcFromRaw (rs : RawService) (svc : Service) : Prop :=
  svc.name = rs.name ∧ svc.typ = rs.typ ∧ svc.target = rs.target ∧
  (if rs.interval = "" then svc.interval = default30s
   else parseDuration rs.interval = some svc.interval) ∧
  (if rs.timeout = "" then svc.timeout = default5s
   else parseDuration rs.timeout = some svc.timeout)

/-- Concrete alerter used by witnesses: fresh state, 10-minute cooldown. -/
def aW : Alerter := Alerter.new "https://hooks.example.com/alert" 600000000000

/-- Concrete result used by witnesses: the `api` service going down. -/
def rW : CheckResult :=
  { serviceName := "api", status := statusDown, responseTime := 12000000,
    error := "connection refused", checkedAt := 0 }

/-- Concrete result used by witnesses: the `db` service going down. -/
def rW2 : CheckResult :=
  { serviceName := "db", status := statusDown, responseTime := 5000000,
    error := "dial tcp db.example.com:5432: connection refused", checkedAt := 100 }

/-- Concrete http service used by witnesses. -/
def svcHttpW : Service :=
  { name := "web", typ := "http", target := "https://example.com/health",
    interval := default30s, timeout := default5s, expectedStatus := 200,
    headers := [] }

/-- Concrete service with an unknown checker type, used by witnesses. -/
def svcFtpW : Service :=
  { name := "legacy", typ := "ftp", target := "ftp://example.com",
    interval := default30s, timeout := default5s, expectedStatus := 0,
    headers := [] }

/-- Frame property of `Notify`: the cooldown entry of any other service is
untouched in every branch. -/
theorem notify_frame_helper (a : Alerter) (now : Int) (r : CheckResult)
    (prev : Option Status) (n : String) (hne : n ≠ r.serviceName) :
    (Alerter.Notify a now r prev).1.lastAlert n = a.lastAlert n := by
  unfold Alerter.Notify
  cases prev with
  | none => rfl
  | some p =>
    by_cases h1 : r.status = p
    · simp [h1]
    · by_cases h2 : cooldownActive a now r.serviceName
      · simp [h1, h2]
      · simp [h1, h2, setLastAlert, hne]

/-- On a transition with no active cooldown, `Notify` records `now` and
dispatches exactly one payload. -/
theorem notify_dispatches (a : Alerter) (now : Int) (r : CheckResult)
    (p : Status) (h1 : r.status ≠ p)
    (h2 : cooldownActive a now r.serviceName = false) :
    Alerter.Notify a now r (some p) =
      ({ a with lastAlert := setLastAlert a.lastAlert r.serviceName now },
       [sendPayload r p]) := by
  simp [Alerter.Notify, h1, h2]

/-- `cooldownActive` only depends on the service's own entry and the
cooldown width. -/
theorem cooldownActive_congr (a a' : Alerter) (now : Int) (n : String)
    (hmap : a'.lastAlert n = a.lastAlert n) (hcd : a'.cooldown = a.cooldown) :
    cooldownActive a' now n = cooldownActive a now n := by
  unfold cooldownActive
  rw [hmap, hcd]

/-- Claim C1: for every call to `Alerter.Notify`, (1) an absent previous
status dispatches nothing and leaves the state unchanged; (2) an unchanged
status dispatches nothing and leaves the state unchanged; (3) a transition
inside the service's cooldown window is suppressed without touching the
last-alert timestamp; (4) otherwise the current time is recorded as the
service's last-alert time and exactly one notification is dispatched. -/
theorem notify_decision (a : Alerter) (now : Int) (r : CheckResult)
    (prev : Option Status) :
    (prev = none → Alerter.Notify a now r prev = (a, [])) ∧
    (∀ p, prev = some p → r.status = p →
      Alerter.Notify a now r prev = (a, [])) ∧
    (∀ p, prev = some p → r.status ≠ p →
      cooldownActive a now r.serviceName = true →
      Alerter.Notify a now r prev = (a, [])) ∧
    (∀ p, prev = some p → r.status ≠ p →
      cooldownActive a now r.serviceName = false →
      Alerter.Notify a now r prev =
        ({ a with lastAlert := setLastAlert a.lastAlert r.serviceName now },
         [sendPayload r p])) := by
  refine ⟨?_, ?_, ?_, ?_⟩
  · rintro rfl; rfl
  · rintro p rfl h
    simp [Alerter.Notify, h]
  · rintro p rfl h1 h2
    simp [Alerter.Notify, h1, h2]
  · rintro p rfl h1 h2
    simp [Alerter.Notify, h1, h2]

/-- Witness for C1: an up-to-down transition for `api` on a fresh alerter
records the call time and dispatches one payload. -/
theorem notify_decision_witness :
    rW.status ≠ statusUp ∧
    cooldownActive aW 5 rW.serviceName = false ∧
    Alerter.Notify aW 5 rW (some statusUp) =
      ({ aW with lastAlert := setLastAlert aW.lastAlert rW.serviceName 5 },
       [sendPayload rW statusUp]) :=
  ⟨by decide, rfl,
   (notify_decision aW 5 rW (some statusUp)).2.2.2 statusUp rfl (by decide) rfl⟩

/-- Claim C5: cooldown state is keyed per service — any `Notify` call for
one service leaves every other service's entry unchanged, and two
transitions for distinct services within the same cooldown window each
dispatch one notification. -/
theorem notify_per_service (a : Alerter) (t1 t2 : Int) (r1 r2 : CheckResult)
    (prev : Option Status) (p1 p2 : Status)
    (hne : r1.serviceName ≠ r2.serviceName) :
    ((Alerter.Notify a t1 r1 prev).1.lastAlert r2.serviceName
        = a.lastAlert r2.serviceName) ∧
    (r1.status ≠ p1 → r2.status ≠ p2 →
      cooldownActive a t1 r1.serviceName = false →
      cooldownActive a t2 r2.serviceName = false →
      t2 - t1 < a.cooldown →
      (Alerter.Notify a t1 r1 (some p1)).2.length = 1 ∧
      (Alerter.Notify (Alerter.Notify a t1 r1 (some p1)).1 t2 r2 (some p2)).2.length
        = 1) := by
  constructor
  · exact notify_frame_helper a t1 r1 prev r2.serviceName (Ne.symm hne)
  · intro h1 h2 hc1 hc2 _
    constructor
    · rw [notify_dispatches a t1 r1 p1 h1 hc1]
      rfl
    · have hframe :
          (Alerter.Notify a t1 r1 (some p1)).1.lastAlert r2.serviceName
            = a.lastAlert r2.serviceName :=
        notify_frame_helper a t1 r1 (some p1) r2.serviceName (Ne.symm hne)
      have hcdeq : (Alerter.Notify a t1 r1 (some p1)).1.cooldown = a.cooldown := by
        rw [notify_dispatches a t1 r1 p1 h1 hc1]
      have hc2' :
          cooldownActive (Alerter.Notify a t1 r1 (some p1)).1 t2 r2.serviceName
            = false := by
        rw [cooldownActive_congr a (Alerter.Notify a t1 r1 (some p1)).1 t2
          r2.serviceName hframe hcdeq]
        exact hc2
      rw [notify_dispatches (Alerter.Notify a t1 r1 (some p1)).1 t2 r2 p2 h2 hc2']
      rfl

/-- Witness for C5: transitions for `api` at time 5 and `db` at time 6, one
second apart inside the 10-minute cooldown, each dispatch one payload, and
the `api` call leaves the `db` entry unchanged. -/
theorem notify_per_service_witness :
    ((Alerter.Notify aW 5 rW (some statusUp)).1.lastAlert rW2.serviceName
        = aW.lastAlert rW2.serviceName) ∧
    (Alerter.Notify aW 5 rW (some statusUp)).2.length = 1 ∧
    (Alerter.Notify (Alerter.Notify aW 5 rW (some statusUp)).1 6 rW2
        (some statusUp)).2.length = 1 :=
  ⟨(notify_per_service aW 5 6 rW rW2 (some statusUp) statusUp statusUp
      (by decide)).1,
   ((notify_per_service aW 5 6 rW rW2 (some statusUp) statusUp statusUp
      (by decide)).2 (by decide) (by decide) rfl rfl (by decide)).1,
   ((notify_per_service aW 5 6 rW rW2 (some statusUp) statusUp statusUp
      (by decide)).2 (by decide) (by decide) rfl rfl (by decide)).2⟩

/-- Concrete ping service used by witnesses. -/
def svcPingW : Service :=
  { name := "dns", typ := "ping", target := "8.8.8.8",
    interval := default30s, timeout := default5s, expectedStatus := 0,
    headers := [] }

/-- Concrete ping output used by witnesses. -/
def pingOutW : String := "64 bytes from 8.8.8.8: icmp_seq=1 ttl=118 time=12.345 ms"

/-- Environment for the one-off check witnesses: every constructible
checker reports Up. -/
def envW : Service → CheckResult := fun svc =>
  { serviceName := svc.name, status := statusUp, responseTime := 1000000,
    error := "", checkedAt := 0 }

/-- Raw service block with a negative explicit interval, used by the C6
counterexample. -/
def rawNegW : RawService :=
  { name := "api", typ := "http", target := "https://example.com/health",
    interval := "-5s", timeout := "", expectedStatus := 0, headers := [] }

/-- The service `Load` produces for `rawNegW`: the negative interval is
accepted as-is. -/
def svcNegW : Service :=
  { name := "api", typ := "http", target := "https://example.com/health",
    interval := -5000000000, timeout := 5000000000, expectedStatus := 200,
    headers := [] }

/-- Well-formed raw service block used by the C6 witness. -/
def rawOkW : RawService :=
  { name := "db", typ := "tcp", target := "db.example.com:5432",
    interval := "15s", timeout := "3s", expectedStatus := 0, headers := [] }

/-- The service `Load` produces for `rawOkW`. -/
def svcDbW : Service :=
  { name := "db", typ := "tcp", target := "db.example.com:5432",
    interval := 15000000000, timeout := 3000000000, expectedStatus := 0,
    headers := [] }

/-- The ticker loop emits one probe per tick until the first cancellation,
then exits. -/
theorem serviceLoop_cancel (pre post : List LoopSignal)
    (h : LoopSignal.cancel ∉ pre) :
    serviceLoop (pre ++ LoopSignal.cancel :: post) =
      (pre.map fun _ => TaskEvent.probe) ++ [TaskEvent.exited] := by
  induction pre with
  | nil => rfl
  | cons a pre ih =>
    cases a with
    | cancel => exact absurd (List.mem_cons_self _ _) h
    | tick =>
      have h' : LoopSignal.cancel ∉ pre := fun hm => h (List.mem_cons_of_mem _ hm)
      simp [serviceLoop, ih h']

/-- Claim C2: each probe execution performs, in order, the previous-result
read, the check, the persistence attempt, and (when registered) the
synchronous callback; a read failure is treated as absence of a previous
result; the trace shape is the same whatever the persistence outcome. -/
theorem runCheck_steps (latest : Except String (Option StoredCheck))
    (checkRes : CheckResult) (insertRes : Except String Unit)
    (registered : Bool) :
    ((runCheck latest checkRes insertRes registered).take 3 =
      [RunEvent.fetchPrev latest, RunEvent.probe checkRes,
       RunEvent.insertRes insertRes]) ∧
    (runCheck latest checkRes insertRes true =
      [RunEvent.fetchPrev latest, RunEvent.probe checkRes,
       RunEvent.insertRes insertRes,
       RunEvent.callback checkRes ((prevFromLatest latest).map StoredCheck.status)]) ∧
    (runCheck latest checkRes insertRes false =
      [RunEvent.fetchPrev latest, RunEvent.probe checkRes,
       RunEvent.insertRes insertRes]) ∧
    (∀ e, latest = Except.error e →
      (prevFromLatest latest).map StoredCheck.status = none) := by
  refine ⟨?_, rfl, rfl, ?_⟩
  · cases registered <;> rfl
  · rintro e rfl
    rfl

/-- Witness for C2: with a failing read, a failing insert and a registered
callback, the probe still runs all four steps and the callback sees no
previous status. -/
theorem runCheck_steps_witness :
    runCheck (Except.error "db locked") rW (Except.error "insert failed") true =
      [RunEvent.fetchPrev (Except.error "db locked"), RunEvent.probe rW,
       RunEvent.insertRes (Except.error "insert failed"),
       RunEvent.callback rW none] :=
  (runCheck_steps (Except.error "db locked") rW (Except.error "insert failed")
    true).2.1

/-- Claim C3: a service task probes once immediately on entry, before any
interval wait, and a cancellation received between iterations makes the
task exit with no further probe. -/
theorem runService_spec (signals pre post : List LoopSignal) :
    ((runService signals).head? = some TaskEvent.probe) ∧
    (signals = pre ++ LoopSignal.cancel :: post → LoopSignal.cancel ∉ pre →
      runService signals =
        TaskEvent.probe :: ((pre.map fun _ => TaskEvent.probe) ++ [TaskEvent.exited])) := by
  constructor
  · rfl
  · rintro rfl hpre
    unfold runService
    rw [serviceLoop_cancel pre post hpre]

/-- Witness for C3: two ticks then cancellation yield the immediate probe,
two tick probes, and an exit — nothing after the cancellation, whatever
signals follow it. -/
theorem runService_spec_witness :
    runService [LoopSignal.tick, LoopSignal.tick, LoopSignal.cancel,
        LoopSignal.tick] =
      [TaskEvent.probe, TaskEvent.probe, TaskEvent.probe, TaskEvent.exited] :=
  (runService_spec
      [LoopSignal.tick, LoopSignal.tick, LoopSignal.cancel, LoopSignal.tick]
      [LoopSignal.tick, LoopSignal.tick] [LoopSignal.tick]).2 rfl (by decide)

/-- Claim C4: the factory succeeds exactly for the types http, tcp, ping
and docker, fails with an `unknown checker type` error otherwise, and
`Start` schedules precisely the services whose factory call succeeds. -/
theorem factory_spec (svc : Service) (svcs : List Service) (s : Service) :
    ((svc.typ = "http" ∨ svc.typ = "tcp" ∨ svc.typ = "ping" ∨ svc.typ = "docker") ↔
      ∃ k, checkerNew svc = Except.ok k) ∧
    (¬(svc.typ = "http" ∨ svc.typ = "tcp" ∨ svc.typ = "ping" ∨ svc.typ = "docker") →
      checkerNew svc = Except.error ("unknown checker type \"" ++ svc.typ ++ "\"")) ∧
    (s ∈ startScheduled svcs ↔ s ∈ svcs ∧ factoryOk s = true) := by
  refine ⟨⟨?_, ?_⟩, ?_, ?_⟩
  · intro h
    rcases h with h | h | h | h
    · exact ⟨CheckerKind.http, by simp [checkerNew, h]⟩
    · exact ⟨CheckerKind.tcp, by simp [checkerNew, h]⟩
    · exact ⟨CheckerKind.ping, by simp [checkerNew, h]⟩
    · exact ⟨CheckerKind.docker, by simp [checkerNew, h]⟩
  · intro hk
    obtain ⟨k, hk⟩ := hk
    unfold checkerNew at hk
    split_ifs at hk with h1 h2 h3 h4
    · exact Or.inl h1
    · exact Or.inr (Or.inl h2)
    · exact Or.inr (Or.inr (Or.inl h3))
    · exact Or.inr (Or.inr (Or.inr h4))
  · intro h
    push_neg at h
    obtain ⟨h1, h2, h3, h4⟩ := h
    simp [checkerNew, h1, h2, h3, h4]
  · simp [startScheduled, List.mem_filter]

/-- Witness for C4: the `ftp` service gets the unknown-type error while the
http service is still scheduled alongside it. -/
theorem factory_spec_witness :
    checkerNew svcFtpW =
      Except.error ("unknown checker type \"" ++ svcFtpW.typ ++ "\"") ∧
    svcHttpW ∈ startScheduled [svcHttpW, svcFtpW] :=
  ⟨(factory_spec svcFtpW [svcHttpW, svcFtpW] svcHttpW).2.1 (by decide),
   ((factory_spec svcFtpW [svcHttpW, svcFtpW] svcHttpW).2.2).mpr ⟨by decide, rfl⟩⟩

/-- Appending cannot shorten: a string with a non-empty left part stays
non-empty. -/
theorem length_append_pos_left (s t : String) (h : 0 < s.length) :
    0 < (s ++ t).length := by
  rw [String.length_append]
  omega

/-- A string whose left part is non-empty is not the empty string. -/
theorem prefix_ne_empty (s t : String) (h : 0 < s.length) : s ++ t ≠ "" := by
  intro he
  have h2 : (s ++ t).length = 0 := by rw [he]; rfl
  rw [String.length_append] at h2
  omega

/-- A Down error text is never the empty string of an Up result. -/
theorem status_error_down (e : String) (he : e ≠ "") :
    (e = "" ↔ (statusDown : String) = statusUp) :=
  iff_of_false he (by decide)

/-- Claim C7: every result of the four checker variants has status Up or
Down, with an empty error exactly on Up; all failure modes resolve to a
Down result (the embedded checkers are total functions).  The hypotheses
record that Go error values render as non-empty strings where the code
stores `err.Error()` verbatim. -/
theorem checker_error_iff_status (svc : Service) (start elapsed : Int)
    (ho : HttpOutcome) (dialErr : Option String)
    (execRes : Except String String) (docko : DockerOutcome)
    (hhttp : ∀ m, ho = HttpOutcome.transportErr m → m ≠ "")
    (hdock : ∀ m, docko = DockerOutcome.inspectErr m → m ≠ "") :
    (((httpCheck svc ho start elapsed).status = statusUp ∨
        (httpCheck svc ho start elapsed).status = statusDown) ∧
      ((httpCheck svc ho start elapsed).error = "" ↔
        (httpCheck svc ho start elapsed).status = statusUp)) ∧
    (((tcpCheck svc dialErr start elapsed).status = statusUp ∨
        (tcpCheck svc dialErr start elapsed).status = statusDown) ∧
      ((tcpCheck svc dialErr start elapsed).error = "" ↔
        (tcpCheck svc dialErr start elapsed).status = statusUp)) ∧
    (((pingCheck svc execRes start elapsed).status = statusUp ∨
        (pingCheck svc execRes start elapsed).status = statusDown) ∧
      ((pingCheck svc execRes start elapsed).error = "" ↔
        (pingCheck svc execRes start elapsed).status = statusUp)) ∧
    (((dockerCheck svc docko start elapsed).status = statusUp ∨
        (dockerCheck svc docko start elapsed).status = statusDown) ∧
      ((dockerCheck svc docko start elapsed).error = "" ↔
        (dockerCheck svc docko start elapsed).status = statusUp)) := by
  refine ⟨?_, ?_, ?_, ?_⟩
  · cases ho with
    | buildErr m =>
      exact ⟨Or.inr rfl, status_error_down _ (prefix_ne_empty _ _ (by decide))⟩
    | transportErr m =>
      exact ⟨Or.inr rfl, status_error_down _ (hhttp m rfl)⟩
    | response code =>
      by_cases hc : code = (if svc.expectedStatus = 0 then 200 else svc.expectedStatus)
      · have hr : httpCheck svc (HttpOutcome.response code) start elapsed =
            { serviceName := svc.name, status := statusUp, responseTime := elapsed,
              error := "", checkedAt := start } := by
          simp only [httpCheck]
          rw [if_neg (not_not_intro hc)]
        rw [hr]
        exact ⟨Or.inl rfl, iff_of_true rfl rfl⟩
      · have hr : httpCheck svc (HttpOutcome.response code) start elapsed =
            { serviceName := svc.name, status := statusDown, responseTime := elapsed,
              error := "expected status " ++
                toString (if svc.expectedStatus = 0 then 200 else svc.expectedStatus) ++
                ", got " ++ toString code,
              checkedAt := start } := by
          simp only [httpCheck]
          rw [if_pos hc]
        rw [hr]
        exact ⟨Or.inr rfl, status_error_down _
          (prefix_ne_empty _ _ (length_append_pos_left _ _
            (length_append_pos_left _ _ (by decide))))⟩
  · cases dialErr with
    | some m =>
      exact ⟨Or.inr rfl, status_error_down _
        (prefix_ne_empty _ _ (length_append_pos_left _ _
          (length_append_pos_left _ _ (by decide))))⟩
    | none => exact ⟨Or.inl rfl, iff_of_true rfl rfl⟩
  · cases execRes with
    | error m =>
      exact ⟨Or.inr rfl, status_error_down _
        (prefix_ne_empty _ _ (length_append_pos_left _ _
          (length_append_pos_left _ _ (by decide))))⟩
    | ok out =>
      cases hf : findRtt out.toList with
      | none =>
        have hr : pingCheck svc (Except.ok out) start elapsed =
            { serviceName := svc.name, status := statusDown, responseTime := elapsed,
              error := "could not parse RTT from ping output", checkedAt := start } := by
          simp only [pingCheck, hf]
        rw [hr]
        exact ⟨Or.inr rfl,
          status_error_down "could not parse RTT from ping output" (by decide)⟩
      | some cap =>
        have hr : pingCheck svc (Except.ok out) start elapsed =
            { serviceName := svc.name, status := statusUp,
              responseTime := rttNanos cap, error := "", checkedAt := start } := by
          simp only [pingCheck, hf]
        rw [hr]
        exact ⟨Or.inl rfl, iff_of_true rfl rfl⟩
  · cases docko with
    | inspectErr m =>
      exact ⟨Or.inr rfl, status_error_down _ (hdock m rfl)⟩
    | state running =>
      cases running with
      | false =>
        exact ⟨Or.inr rfl, status_error_down _ (prefix_ne_empty _ _
          (length_append_pos_left _ _ (by decide)))⟩
      | true => exact ⟨Or.inl rfl, iff_of_true rfl rfl⟩

/-- Witness for C7: concrete drivers for all four variants — an http
transport failure, a tcp dial failure, a successful ping parse and a
running container. -/
theorem checker_error_iff_status_witness :
    ((httpCheck svcHttpW (HttpOutcome.transportErr "connection refused") 0 3).error = "" ↔
      (httpCheck svcHttpW (HttpOutcome.transportErr "connection refused") 0 3).status = statusUp) ∧
    ((pingCheck svcPingW (Except.ok pingOutW) 0 3).error = "" ↔
      (pingCheck svcPingW (Except.ok pingOutW) 0 3).status = statusUp) :=
  ⟨(checker_error_iff_status svcHttpW 0 3
      (HttpOutcome.transportErr "connection refused") (some "refused")
      (Except.ok pingOutW) (DockerOutcome.state true)
      (by intro m hm; cases hm; decide) (by intro m hm; cases hm)).1.2,
   (checker_error_iff_status svcHttpW 0 3
      (HttpOutcome.transportErr "connection refused") (some "refused")
      (Except.ok pingOutW) (DockerOutcome.state true)
      (by intro m hm; cases hm; decide) (by intro m hm; cases hm)).2.2.1.2⟩

/-- Claim C8: when the ping output matches `time=<number> ms`, the result
is Up and its response time is the parsed RTT (independent of the
wall-clock `elapsed`); when it does not match, the result is Down with a
non-empty error, and the check is a total function (no crash). -/
theorem ping_rtt_spec (svc : Service) (out : String) (start elapsed : Int) :
    (∀ cap, findRtt out.toList = some cap →
      (pingCheck svc (Except.ok out) start elapsed).status = statusUp ∧
      (pingCheck svc (Except.ok out) start elapsed).responseTime = rttNanos cap) ∧
    (findRtt out.toList = none →
      (pingCheck svc (Except.ok out) start elapsed).status = statusDown ∧
      (pingCheck svc (Except.ok out) start elapsed).error ≠ "") := by
  constructor
  · intro cap hf
    constructor <;> simp only [pingCheck, hf]
  · intro hf
    have hr : pingCheck svc (Except.ok out) start elapsed =
        { serviceName := svc.name, status := statusDown, responseTime := elapsed,
          error := "could not parse RTT from ping output", checkedAt := start } := by
      simp only [pingCheck, hf]
    rw [hr]
    exact ⟨rfl, (by decide : ("could not parse RTT from ping output" : String) ≠ "")⟩

/-- Witness for C8: the capture `12.345` from a real ping line yields Up
with 12345000 ns — the parsed 12.345 ms, not the wall-clock 999 ns. -/
theorem ping_rtt_spec_witness :
    (pingCheck svcPingW (Except.ok pingOutW) 0 999).status = statusUp ∧
    (pingCheck svcPingW (Except.ok pingOutW) 0 999).responseTime = 12345000 :=
  (ping_rtt_spec svcPingW pingOutW 0 999).1 "12.345".toList rfl

/-- Claim C9: an HTTP check is Up exactly when the request was constructed,
the transport succeeded, and the response code equals the configured
expected status (with 0 treated as 200); every other outcome is Down with
a non-empty error. -/
theorem http_up_iff (svc : Service) (o : HttpOutcome) (start elapsed : Int)
    (htr : ∀ m, o = HttpOutcome.transportErr m → m ≠ "") :
    ((httpCheck svc o start elapsed).status = statusUp ↔
      o = HttpOutcome.response
        (if svc.expectedStatus = 0 then 200 else svc.expectedStatus)) ∧
    ((httpCheck svc o start elapsed).status ≠ statusUp →
      (httpCheck svc o start elapsed).status = statusDown ∧
      (httpCheck svc o start elapsed).error ≠ "") := by
  cases o with
  | buildErr m =>
    refine ⟨iff_of_false (show ¬((statusDown : String) = statusUp) by decide)
      (by intro h; cases h), ?_⟩
    intro _
    exact ⟨rfl, prefix_ne_empty _ _ (by decide)⟩
  | transportErr m =>
    refine ⟨iff_of_false (show ¬((statusDown : String) = statusUp) by decide)
      (by intro h; cases h), ?_⟩
    intro _
    exact ⟨rfl, htr m rfl⟩
  | response code =>
    by_cases hc : code = (if svc.expectedStatus = 0 then 200 else svc.expectedStatus)
    · have hr : httpCheck svc (HttpOutcome.response code) start elapsed =
          { serviceName := svc.name, status := statusUp, responseTime := elapsed,
            error := "", checkedAt := start } := by
        simp only [httpCheck]
        rw [if_neg (not_not_intro hc)]
      rw [hr]
      refine ⟨iff_of_true rfl (by rw [hc]), ?_⟩
      intro h
      exact absurd rfl h
    · have hr : httpCheck svc (HttpOutcome.response code) start elapsed =
          { serviceName := svc.name, status := statusDown, responseTime := elapsed,
            error := "expected status " ++
              toString (if svc.expectedStatus = 0 then 200 else svc.expectedStatus) ++
              ", got " ++ toString code,
            checkedAt := start } := by
        simp only [httpCheck]
        rw [if_pos hc]
      rw [hr]
      refine ⟨iff_of_false (show ¬((statusDown : String) = statusUp) by decide) ?_, ?_⟩
      · intro h
        injection h with h
        exact hc h
      · intro _
        exact ⟨rfl, prefix_ne_empty _ _ (length_append_pos_left _ _
          (length_append_pos_left _ _ (by decide)))⟩

/-- Witness for C9: a 200 response against the configured expected status
200 yields Up. -/
theorem http_up_iff_witness :
    (httpCheck svcHttpW (HttpOutcome.response 200) 0 3).status = statusUp :=
  ((http_up_iff svcHttpW (HttpOutcome.response 200) 0 3
      (by intro m hm; cases hm)).1).mpr rfl

/-- Claim C10: the one-off check command produces one result row per
configured service in order; a service whose checker cannot be constructed
gets a Down row with a `creating checker` error instead of aborting; and
the command returns an error exactly when some result is not Up. -/
theorem runChecks_spec (svcs : List Service) (env : Service → CheckResult)
    (now : Int) :
    ((runChecks svcs env now).1.length = svcs.length) ∧
    ((runChecks svcs env now).1 = svcs.map fun svc => checkRow svc env now) ∧
    (∀ svc e, checkerNew svc = Except.error e →
      checkRow svc env now =
        { serviceName := svc.name, status := statusDown, responseTime := 0,
          error := "creating checker: " ++ e, checkedAt := now }) ∧
    ((runChecks svcs env now).2 = true ↔
      ∃ r ∈ (runChecks svcs env now).1, r.status ≠ statusUp) := by
  refine ⟨by simp [runChecks], rfl, ?_, ?_⟩
  · intro svc e he
    simp [checkRow, he]
  · simp [runChecks, List.any_eq_true]

/-- Witness for C10: with one http service reporting Up and one `ftp`
service, the command yields two rows, the `ftp` row is the creating-checker
Down row, and the command returns an error. -/
theorem runChecks_spec_witness :
    (runChecks [svcHttpW, svcFtpW] envW 7).1.length = 2 ∧
    checkRow svcFtpW envW 7 =
      { serviceName := svcFtpW.name, status := statusDown, responseTime := 0,
        error := "creating checker: " ++
          ("unknown checker type \"" ++ svcFtpW.typ ++ "\""),
        checkedAt := 7 } ∧
    (runChecks [svcHttpW, svcFtpW] envW 7).2 = true :=
  ⟨(runChecks_spec [svcHttpW, svcFtpW] envW 7).1,
   (runChecks_spec [svcHttpW, svcFtpW] envW 7).2.2.1 svcFtpW
     ("unknown checker type \"" ++ svcFtpW.typ ++ "\"") rfl,
   ((runChecks_spec [svcHttpW, svcFtpW] envW 7).2.2.2).mpr
     ⟨checkRow svcFtpW envW 7, by decide, by decide⟩⟩

/-- What a successful `intervalOf` means: the default when omitted, the
parsed duration otherwise. -/
theorem intervalOf_ok (rs : RawService) (i : Int)
    (h : intervalOf rs = Except.ok i) :
    if rs.interval = "" then i = default30s
    else parseDuration rs.interval = some i := by
  unfold intervalOf at h
  split_ifs at h with he
  · simp only [he, if_true]
    cases h
    rfl
  · simp only [he, if_false]
    cases hp : parseDuration rs.interval with
    | none => rw [hp] at h; cases h
    | some d => rw [hp] at h; cases h; rfl

/-- What a successful `timeoutOf` means: the default when omitted, the
parsed duration otherwise. -/
theorem timeoutOf_ok (rs : RawService) (t : Int)
    (h : timeoutOf rs = Except.ok t) :
    if rs.timeout = "" then t = default5s
    else parseDuration rs.timeout = some t := by
  unfold timeoutOf at h
  split_ifs at h with he
  · simp only [he, if_true]
    cases h
    rfl
  · simp only [he, if_false]
    cases hp : parseDuration rs.timeout with
    | none => rw [hp] at h; cases h
    | some d => rw [hp] at h; cases h; rfl

/-- Soundness of the validation loop: a successful run yields services with
pairwise-distinct names none of which was already seen, valid types,
non-empty targets, and fields related to some raw block as `svcFromRaw`
describes. -/
theorem loadServicesAux_ok (raw : List RawService) :
    ∀ (names : List String) (svcs : List Service),
      loadServicesAux raw names = Except.ok svcs →
      ((svcs.map Service.name).Nodup ∧ ∀ svc ∈ svcs, svc.name ∉ names) ∧
      ∀ svc ∈ svcs, validTypes svc.typ = true ∧ svc.target ≠ "" ∧
        ∃ rs ∈ raw, svcFromRaw rs svc := by
  induction raw with
  | nil =>
    intro names svcs h
    cases h
    exact ⟨⟨List.nodup_nil, by simp⟩, by simp⟩
  | cons rs rest ih =>
    intro names svcs h
    unfold loadServicesAux at h
    split_ifs at h with h1 h2 h3 h4
    cases hi : intervalOf rs with
    | error e => rw [hi] at h; cases h
    | ok i =>
      rw [hi] at h
      cases ht : timeoutOf rs with
      | error e => rw [ht] at h; cases h
      | ok t =>
        rw [ht] at h
        cases hrec : loadServicesAux rest (rs.name :: names) with
        | error e => rw [hrec] at h; cases h
        | ok tail =>
          rw [hrec] at h
          cases h
          obtain ⟨⟨hnodup, hfresh⟩, hprops⟩ := ih (rs.name :: names) tail hrec
          have hhead : (serviceOfRaw rs i t).name = rs.name := rfl
          refine ⟨⟨?_, ?_⟩, ?_⟩
          · rw [List.map_cons, List.nodup_cons]
            refine ⟨?_, hnodup⟩
            intro hmem
            rw [List.mem_map] at hmem
            obtain ⟨svc, hsvc, hname⟩ := hmem
            exact hfresh svc hsvc (hname ▸ List.mem_cons_self _ _)
          · intro svc hsvc
            rcases List.mem_cons.mp hsvc with hb | hb
            · rw [hb, hhead]
              exact h2
            · intro hm
              exact hfresh svc hb (List.mem_cons_of_mem _ hm)
          · intro svc hsvc
            rcases List.mem_cons.mp hsvc with hb | hb
            · subst hb
              refine ⟨?_, h3, rs, List.mem_cons_self _ _, rfl, rfl, rfl, ?_, ?_⟩
              · have h4' : validTypes rs.typ = true := by simpa using h4
                exact h4'
              · exact intervalOf_ok rs i hi
              · exact timeoutOf_ok rs t ht
            · obtain ⟨hv, htgt, rs', hrs', hfr⟩ := hprops svc hb
              exact ⟨hv, htgt, rs', List.mem_cons_of_mem _ hrs', hfr⟩

/-- Claim C6 (amended): every service in a configuration `Load` accepts has
a unique name, a type in the closed enum, a non-empty target, and interval
and timeout fields that are the 30s and 5s defaults when omitted and
otherwise whatever duration the string parses to — positivity of explicit
durations is not validated. -/
theorem load_invariants (raw : List RawService) (svcs : List Service)
    (h : loadConfig raw = Except.ok svcs) :
    (svcs.map Service.name).Nodup ∧
    ∀ svc ∈ svcs, validTypes svc.typ = true ∧ svc.target ≠ "" ∧
      ∃ rs ∈ raw, svcFromRaw rs svc := by
  unfold loadConfig at h
  cases raw with
  | nil => cases h
  | cons rs rest =>
    obtain ⟨⟨hnodup, _⟩, hprops⟩ := loadServicesAux_ok (rs :: rest) [] svcs h
    exact ⟨hnodup, hprops⟩

/-- Counterexample to C6 as stated: `Load` accepts an explicit interval of
`-5s` unchanged, so a loaded service need not have a positive interval. -/
theorem load_positive_interval_cex :
    loadConfig [rawNegW] = Except.ok [svcNegW] ∧ svcNegW.interval < 0 :=
  ⟨rfl, by decide⟩

/-- Witness for C6 (amended): a two-service configuration loads with
pairwise-distinct names, and the `db` service has a valid type. -/
theorem load_invariants_witness :
    ([svcNegW, svcDbW].map Service.name).Nodup ∧ validTypes svcDbW.typ = true :=
  ⟨(load_invariants [rawNegW, rawOkW] [svcNegW, svcDbW] rfl).1,
   ((load_invariants [rawNegW, rawOkW] [svcNegW, svcDbW] rfl).2 svcDbW
     (by decide)).1⟩

end Servprobe

